import Mathlib

/-
Shallow embedding of custom_components/raritan-pdu/raritan_pdu.py
(classes RaritanPDUOutlet and RaritanPDU), together with the part of
snmp.py that determines which scalar shapes snmp_get can hand back.
Python floats are modelled as rationals, Python ints as Int, the two
SNMP round trips of a refresh as explicit Option-valued inputs, and
Python exceptions as Except values.
-/

namespace RaritanPdu

/-- A Python scalar as produced by SNMPManager.snmp_get: the decoder turns
a digit-only token into an int and leaves every other token a string (its
float branch is unreachable because a token that is all decimal digits is
already caught by the int branch); floats still arise inside the program
itself, e.g. in the energy bookkeeping, so they are a third constructor. -/
inductive Value where
  | i (n : Int)
  | s (t : String)
  | f (q : ℚ)
deriving DecidableEq

/-- Python str(v) on a scalar.  The float rendering is immaterial below:
no link value is ever a float. -/
def pyStr : Value → String
  | Value.i n => toString n
  | Value.s t => t
  | Value.f q => toString q

/-- Python v == "lit" for a scalar v: only an equal string compares true. -/
def pyEqStr : Value → String → Bool
  | Value.s t, u => t == u
  | _, _ => false

/-- Python s.startswith(pre): pre is a prefix of s, character by
character. -/
def pyStartsWith (s pre : String) : Bool :=
  List.isPrefixOf pre.data s.data

/-- The Python exceptions the embedded code can raise. -/
inductive PyErr where
  | typeError
  | keyError
  | indexError
deriving DecidableEq

/-- Python dict assignment d[k] = v on an insertion-ordered dict: an
existing key keeps its position, a new key is appended at the end. -/
def setKey : List (String × Value) → String → Value → List (String × Value)
  | [], k, v => [(k, v)]
  | (k', v') :: rest, k, v =>
      if k' = k then (k, v) :: rest else (k', v') :: setKey rest k v

/-- Python dict read d[k]: KeyError when the key is absent. -/
def pyDictGet (d : List (String × Value)) (k : String) : Except PyErr Value :=
  match List.lookup k d with
  | some v => Except.ok v
  | none => Except.error PyErr.keyError

/-- Python str.title() on a character list: an alphabetic character is
uppercased when it follows a non-alphabetic one and lowercased otherwise. -/
def pyTitleGo : Bool → List Char → List Char
  | _, [] => []
  | prevAlpha, c :: cs =>
      (if c.isAlpha then (if prevAlpha then c.toLower else c.toUpper) else c)
        :: pyTitleGo c.isAlpha cs

/-- Line 152 of the source: the wire object name derived from a field name
by title-casing it and removing the underscores. -/
def mibObjectName (data_name : String) : String :=
  "outlet" ++ String.mk ((pyTitleGo false data_name.data).filter (fun c => c ≠ '_'))

/-- Python s.split(sep)[0] for a nonempty separator: the characters before
the first occurrence of sep, or all of s when sep does not occur. -/
def firstSegmentChars (sep : List Char) : List Char → List Char
  | [] => []
  | c :: cs =>
      if List.isPrefixOf sep (c :: cs) then [] else c :: firstSegmentChars sep cs

/-- Index of the first occurrence of sep inside a list, when there is one
(the least position at which sep is a prefix of the remaining list). -/
def findOcc (sep : List Char) : List Char → Option Nat
  | [] => if List.isPrefixOf sep ([] : List Char) then some 0 else none
  | c :: cs =>
      if List.isPrefixOf sep (c :: cs) then some 0
      else (findOcc sep cs).map (fun n => n + 1)

/-- Spec-side definition, following the spec's words: the segment of the
text before the first occurrence of the separator (the whole text when the
separator does not occur).  Compared against firstSegmentChars in C7. -/
def specFirstSegment (sep l : List Char) : List Char :=
  match findOcc sep l with
  | some n => l.take n
  | none => l

/-- State of class RaritanPDUOutlet.  The snmp_manager handle held by the
Python object is the external link and carries no state this code reads,
so it is not part of the embedded state. -/
structure RaritanPDUOutlet where
  index : Int
  energy_support : Bool
  sensor_data : List (String × Value)
  last_sensor_data_update_timestamp : ℚ
  initial_energy_delivered : ℚ
  energy_delivered : ℚ
deriving DecidableEq

/-- The sensor_data dict exactly as __init__ builds it (the fields that are
commented out in the source are absent here as well). -/
def baseSensorData : List (String × Value) :=
  [("label", Value.s ""), ("current", Value.i 0), ("voltage", Value.i 0),
   ("active_power", Value.i 0), ("power_factor", Value.i 0)]

/-- RaritanPDUOutlet.__init__: watt_hours is appended when energy_support
holds; timestamps and both energy accumulators start at zero. -/
def newOutlet (index : Int) (energy_support : Bool) : RaritanPDUOutlet :=
  { index := index
    energy_support := energy_support
    sensor_data :=
      baseSensorData ++ (if energy_support then [("watt_hours", Value.i 0)] else [])
    last_sensor_data_update_timestamp := 0
    initial_energy_delivered := 0
    energy_delivered := 0 }

/-- RaritanPDUOutlet.initialize_energy_delivered. -/
def initialize_energy_delivered (o : RaritanPDUOutlet) (initial_value : ℚ) : RaritanPDUOutlet :=
  { o with initial_energy_delivered := initial_value }

/-- Python v * q where q is a float: ints and floats multiply; a string
times a float raises TypeError. -/
def pyMulQ : Value → ℚ → Except PyErr ℚ
  | Value.i n, q => Except.ok ((n : ℚ) * q)
  | Value.f p, q => Except.ok (p * q)
  | Value.s _, _ => Except.error PyErr.typeError

/-- RaritanPDUOutlet.update_energy_delivered (lines 71-82). -/
def update_energy_delivered (o : RaritanPDUOutlet)
    (current_sensor_data_update_timestamp : ℚ) : Except PyErr RaritanPDUOutlet :=
  if o.last_sensor_data_update_timestamp = 0 then Except.ok o
  else
    let time_diff_seconds :=
      current_sensor_data_update_timestamp - o.last_sensor_data_update_timestamp
    if time_diff_seconds < 0 then Except.ok o
    else
      let time_diff_hours := time_diff_seconds / ((60 : ℚ) * 60)
      match pyDictGet o.sensor_data "active_power" with
      | Except.error e => Except.error e
      | Except.ok v =>
          match pyMulQ v time_diff_hours with
          | Except.error e => Except.error e
          | Except.ok new_energy_delivered =>
              Except.ok { o with energy_delivered := o.energy_delivered + new_energy_delivered }

/-- RaritanPDUOutlet.update_last_sensor_data_update_timestamp. -/
def update_last_sensor_data_update_timestamp (o : RaritanPDUOutlet) (t : ℚ) :
    RaritanPDUOutlet :=
  { o with last_sensor_data_update_timestamp := t }

/-- State of class RaritanPDU.  host, port and community only form the
unique identifier and the link handle; they play no role in the claims. -/
structure RaritanPDU where
  name : String
  energy_support : Bool
  outlet_count : Nat
  cpu_temperature : ℚ
  outlets : List RaritanPDUOutlet
deriving DecidableEq

/-- RaritanPDU.__init__ (everything empty, no network traffic). -/
def initialPDU : RaritanPDU :=
  { name := "", energy_support := false, outlet_count := 0,
    cpu_temperature := 0, outlets := [] }

/-- Outcome of one snmp_get round trip as seen by authenticate: the call
can raise, report failure (None), or produce a value. -/
inductive LinkOutcome where
  | raises
  | value (v : Option Value)
deriving DecidableEq

/-- RaritanPDU.authenticate (lines 109-117) as a function of the outcome
of its single snmp_get round trip. -/
def authenticate (r : LinkOutcome) : Bool :=
  match r with
  | LinkOutcome.raises => false
  | LinkOutcome.value none => false
  | LinkOutcome.value (some result) => pyStartsWith (pyStr result) "Raritan Dominion PX"

/-- The five values of the first (discovery) round trip of update_data.
The two numeric points are taken at the shapes snmp_get produces for them
(a digit-only token becomes a nonnegative int, hence outletCount : Nat);
the three text points stay general scalars. -/
structure DiscoveryResult where
  desc : Value
  sysName : Value
  energySupport : Value
  outletCount : Nat
  cpuTemp : Int
deriving DecidableEq

/-- Lines 135-137 of update_data: derive name, energy_support and
cpu_temperature from the discovery values. -/
def applyDiscoveryFields (pdu : RaritanPDU) (d : DiscoveryResult) : RaritanPDU :=
  { pdu with
    name := String.mk (firstSegmentChars (" - ".data) (pyStr d.desc).data)
              ++ " " ++ pyStr d.sysName
    energy_support := pyEqStr d.energySupport "Yes"
    cpu_temperature := (d.cpuTemp : ℚ) / 10 }

/-- Lines 140-146 of update_data: rebuild the outlet list only when the
outlet count changed. -/
def reconcileOutlets (pdu : RaritanPDU) (outlet_count : Nat) : RaritanPDU :=
  if outlet_count ≠ pdu.outlet_count then
    { pdu with
      outlet_count := outlet_count
      outlets := (List.range outlet_count).map
        (fun (i : Nat) => newOutlet ((i : Int) + 1) pdu.energy_support) }
  else pdu

/-- Lines 133-146 of update_data: everything the discovery round changes
(field derivation followed by the outlet-count reconciliation). -/
def discoveryStep (pdu : RaritanPDU) (d : DiscoveryResult) : RaritanPDU :=
  reconcileOutlets (applyDiscoveryFields pdu d) d.outletCount

/-- Lines 149-153 of update_data: the flat request list, outlets in list
order, each outlet's sensor_data keys in dict order. -/
def buildOids (outlets : List RaritanPDUOutlet) : List (String × String × Int) :=
  outlets.flatMap (fun o =>
    (o.sensor_data.map Prod.fst).map
      (fun data_name => ("PDU-MIB", mibObjectName data_name, o.index)))

/-- Python results[i] where results may be None: subscripting None raises
TypeError, an index past the end raises IndexError. -/
def pySubscript (results : Option (List Value)) (i : Nat) : Except PyErr Value :=
  match results with
  | none => Except.error PyErr.typeError
  | some l =>
      match l.get? i with
      | some v => Except.ok v
      | none => Except.error PyErr.indexError

/-- The inner loop of lines 164-167: assign one returned value per field
of one outlet, in dict order, advancing the running index i. -/
def assignFields (o : RaritanPDUOutlet) (results : Option (List Value)) (i : Nat) :
    List String → Except PyErr (RaritanPDUOutlet × Nat)
  | [] => Except.ok (o, i)
  | data_name :: rest =>
      match pySubscript results i with
      | Except.error e => Except.error e
      | Except.ok v =>
          assignFields { o with sensor_data := setKey o.sensor_data data_name v }
            results (i + 1) rest

/-- Lines 163-171 for a single outlet: assign its fields from the batched
response, then integrate energy, then overwrite the timestamp. -/
def updateOutletFromResults (o : RaritanPDUOutlet) (results : Option (List Value))
    (i : Nat) (now : ℚ) : Except PyErr (RaritanPDUOutlet × Nat) :=
  match assignFields o results i (o.sensor_data.map Prod.fst) with
  | Except.error e => Except.error e
  | Except.ok (o1, i1) =>
      match update_energy_delivered o1 now with
      | Except.error e => Except.error e
      | Except.ok o2 =>
          Except.ok (update_last_sensor_data_update_timestamp o2 now, i1)

/-- The outer distribution loop of lines 162-171, threading the running
index through the outlets in list order. -/
def distributeLoop : List RaritanPDUOutlet → Option (List Value) → Nat → ℚ →
    Except PyErr (List RaritanPDUOutlet)
  | [], _, _, _ => Except.ok []
  | o :: os, results, i, now =>
      match updateOutletFromResults o results i now with
      | Except.error e => Except.error e
      | Except.ok (o', i') =>
          match distributeLoop os results i' now with
          | Except.error e => Except.error e
          | Except.ok os' => Except.ok (o' :: os')

/-- RaritanPDU.update_data (lines 119-171) as a function of the two round
trip outcomes and of the time.time() sample.  `result` is the discovery
response and `results` the batched sensor response; line 158 of the source
re-checks `result` (the first round's value, already known non-None at
that point) instead of `results`, and the embedding keeps that faithfully. -/
def update_data (pdu : RaritanPDU) (result : Option DiscoveryResult)
    (results : Option (List Value)) (current_update_time : ℚ) :
    Except PyErr RaritanPDU :=
  match result with
  | none => Except.ok pdu
  | some d =>
      let pdu2 := discoveryStep pdu d
      if result = none then Except.ok pdu2
      else
        match distributeLoop pdu2.outlets results 0 current_update_time with
        | Except.error e => Except.error e
        | Except.ok outlets2 => Except.ok { pdu2 with outlets := outlets2 }

/-- Python list subscripting with a possibly negative index, as list.get
uses it: a negative index counts from the end. -/
def pyListGet {α : Type} (l : List α) (i : Int) : Option α :=
  if 0 ≤ i then l.get? i.toNat
  else if i.natAbs ≤ l.length then l.get? (l.length - i.natAbs)
  else none

/-- RaritanPDU.get_outlet_by_index (lines 173-174). -/
def get_outlet_by_index (pdu : RaritanPDU) (index : Int) : Option RaritanPDUOutlet :=
  pyListGet pdu.outlets (index - 1)

/-- The energy-relevant projection of one refresh cycle on one outlet,
composed from the source operations in the order lines 166-171 run them:
the distribution assignment of the new active_power reading, then
update_energy_delivered, then the timestamp overwrite. -/
def powerCycle (o : RaritanPDUOutlet) (p : Int) (t : ℚ) : Except PyErr RaritanPDUOutlet :=
  match update_energy_delivered
      { o with sensor_data := setKey o.sensor_data "active_power" (Value.i p) } t with
  | Except.error e => Except.error e
  | Except.ok o2 => Except.ok (update_last_sensor_data_update_timestamp o2 t)

/-- A sequence of refresh cycles applied to one outlet: each cycle carries
the fetched active-power reading and the time.time() sample. -/
def runCycles (o : RaritanPDUOutlet) : List (Int × ℚ) → Except PyErr RaritanPDUOutlet
  | [] => Except.ok o
  | (p, t) :: rest =>
      match powerCycle o p t with
      | Except.error e => Except.error e
      | Except.ok o1 => runCycles o1 rest

/-- A store of Python dict objects addressed by position: just enough heap
to state that get_data's dict.copy() is a fresh object, distinct from the
outlet's own sensor_data dict. -/
structure DictHeap where
  cells : List (List (String × Value))
deriving DecidableEq

/-- Dereference a dict address. -/
def readCell (h : DictHeap) (a : Nat) : Option (List (String × Value)) :=
  h.cells.get? a

/-- Mutate the dict at an address in place. -/
def writeCell (h : DictHeap) (a : Nat) (d : List (String × Value)) : DictHeap :=
  ⟨h.cells.set a d⟩

/-- RaritanPDUOutlet with its sensor_data dict held by reference, for the
snapshot-aliasing part of the get_data claim. -/
structure HeapOutlet where
  index : Int
  sensorRef : Nat
  last_sensor_data_update_timestamp : ℚ
  initial_energy_delivered : ℚ
  energy_delivered : ℚ
deriving DecidableEq

/-- initialize_energy_delivered over the heap-held representation. -/
def hInitializeEnergyDelivered (o : HeapOutlet) (initial_value : ℚ) : HeapOutlet :=
  { o with initial_energy_delivered := initial_value }

/-- update_energy_delivered over the heap-held representation; the
sensorRef of a live outlet always dereferences, the error branch only
totalises the function. -/
def hUpdateEnergyDelivered (h : DictHeap) (o : HeapOutlet)
    (current_sensor_data_update_timestamp : ℚ) : Except PyErr HeapOutlet :=
  if o.last_sensor_data_update_timestamp = 0 then Except.ok o
  else
    let time_diff_seconds :=
      current_sensor_data_update_timestamp - o.last_sensor_data_update_timestamp
    if time_diff_seconds < 0 then Except.ok o
    else
      let time_diff_hours := time_diff_seconds / ((60 : ℚ) * 60)
      match readCell h o.sensorRef with
      | none => Except.error PyErr.keyError
      | some d =>
          match pyDictGet d "active_power" with
          | Except.error e => Except.error e
          | Except.ok v =>
              match pyMulQ v time_diff_hours with
              | Except.error e => Except.error e
              | Except.ok new_energy_delivered =>
                  Except.ok { o with energy_delivered := o.energy_delivered + new_energy_delivered }

/-- RaritanPDUOutlet.get_data (lines 87-95): data = self.sensor_data.copy()
allocates a fresh cell at the end of the heap, the energy_delivered entry
is written into that fresh cell, and its address is returned. -/
def hGetData (h : DictHeap) (o : HeapOutlet) : Except PyErr (DictHeap × Nat) :=
  match readCell h o.sensorRef with
  | none => Except.error PyErr.keyError
  | some d =>
      let a := h.cells.length
      let h1 : DictHeap := ⟨h.cells ++ [d]⟩
      let h2 := writeCell h1 a
        (setKey d "energy_delivered"
          (Value.f (o.energy_delivered + o.initial_energy_delivered)))
      Except.ok (h2, a)

/-- Concrete inputs used by the witnesses. -/
def demoOutlet : RaritanPDUOutlet := newOutlet 1 false

def demoCycles : List (Int × ℚ) := [(100, 10), (50, 20)]

def demoDiscovery : DiscoveryResult :=
  { desc := Value.s "Raritan Dominion PX2 - PDU", sysName := Value.s "my-pdu",
    energySupport := Value.s "Yes", outletCount := 1, cpuTemp := 365 }

def demoFields : List String :=
  ["label", "current", "voltage", "active_power", "power_factor"]

def demoOutlets : List RaritanPDUOutlet := [newOutlet 1 false, newOutlet 2 false]

def demoVals : List Value := (List.range 10).map (fun k => Value.i (k : Int))

def demoHeap : DictHeap := ⟨[setKey baseSensorData "active_power" (Value.i 10)]⟩

def demoHOutlet : HeapOutlet :=
  { index := 1, sensorRef := 0, last_sensor_data_update_timestamp := 100,
    initial_energy_delivered := 0, energy_delivered := 0 }

def demoPDU3 : RaritanPDU := reconcileOutlets initialPDU 3

def demoOutletC8 : RaritanPDUOutlet :=
  update_last_sensor_data_update_timestamp
    { demoOutlet with
      sensor_data := setKey demoOutlet.sensor_data "active_power" (Value.i 100) } 100

/-- A nonempty needle is never a prefix of the empty list. -/
theorem isPrefixOf_nil_of_ne (sep : List Char) (hsep : sep ≠ []) :
    List.isPrefixOf sep ([] : List Char) = false := by
  cases sep with
  | nil => exact absurd rfl hsep
  | cons a as => rfl

/-- The source's split-based first segment agrees with the spec-side
"segment before the first occurrence of the separator". -/
theorem firstSegment_eq_spec (sep : List Char) (hsep : sep ≠ []) :
    ∀ l, firstSegmentChars sep l = specFirstSegment sep l := by
  intro l
  induction l with
  | nil =>
      simp [firstSegmentChars, specFirstSegment, findOcc, isPrefixOf_nil_of_ne sep hsep]
  | cons c cs ih =>
      by_cases h : List.isPrefixOf sep (c :: cs)
      · simp [firstSegmentChars, specFirstSegment, findOcc, h]
      · cases hfind : findOcc sep cs with
        | none =>
            have hcs : firstSegmentChars sep cs = cs := by
              rw [ih, specFirstSegment, hfind]
            simp [firstSegmentChars, specFirstSegment, findOcc, h, hfind, hcs]
        | some n =>
            have hcs : firstSegmentChars sep cs = cs.take n := by
              rw [ih, specFirstSegment, hfind]
            simp [firstSegmentChars, specFirstSegment, findOcc, h, hfind, hcs]

/-- C4: the integration step is a no-op when the outlet was never updated
(sentinel timestamp 0) and when the elapsed interval is negative. -/
theorem claim_C4 (o : RaritanPDUOutlet) (now : ℚ) :
    (o.last_sensor_data_update_timestamp = 0 →
      update_energy_delivered o now = Except.ok o) ∧
    (now < o.last_sensor_data_update_timestamp →
      update_energy_delivered o now = Except.ok o) := by
  constructor
  · intro h
    simp [update_energy_delivered, h]
  · intro h
    by_cases h0 : o.last_sensor_data_update_timestamp = 0
    · simp [update_energy_delivered, h0]
    · have hneg : now - o.last_sensor_data_update_timestamp < 0 := by linarith
      simp [update_energy_delivered, h0, hneg]

/-- C4 witness: a freshly constructed outlet has the sentinel timestamp,
so integrating at time 5 changes nothing. -/
theorem claim_C4_witness : update_energy_delivered demoOutlet 5 = Except.ok demoOutlet :=
  (claim_C4 demoOutlet 5).1 rfl

/-- C8: with a prior timestamp and a nonnegative interval, the integration
step adds exactly activePower times elapsed seconds over 3600; in
particular 100 W over one hour adds exactly 100 Wh. -/
theorem claim_C8 (o : RaritanPDUOutlet) (now : ℚ) (p : Int)
    (h0 : o.last_sensor_data_update_timestamp ≠ 0)
    (h1 : o.last_sensor_data_update_timestamp ≤ now)
    (hp : List.lookup "active_power" o.sensor_data = some (Value.i p)) :
    update_energy_delivered o now =
      Except.ok { o with energy_delivered :=
        o.energy_delivered +
          (p : ℚ) * ((now - o.last_sensor_data_update_timestamp) / 3600) } ∧
    (p = 100 → now = o.last_sensor_data_update_timestamp + 3600 →
      ∃ o2, update_energy_delivered o now = Except.ok o2 ∧
        o2.energy_delivered = o.energy_delivered + 100) := by
  have hneg : ¬ now - o.last_sensor_data_update_timestamp < 0 := by linarith
  have hmain : update_energy_delivered o now =
      Except.ok { o with energy_delivered :=
        o.energy_delivered +
          (p : ℚ) * ((now - o.last_sensor_data_update_timestamp) / 3600) } := by
    simp only [update_energy_delivered, if_neg h0, if_neg hneg, pyDictGet, hp, pyMulQ]
    norm_num
  refine ⟨hmain, fun hp100 hnow => ⟨_, hmain, ?_⟩⟩
  subst hp100
  rw [hnow]
  push_cast
  ring_nf

/-- C8 witness: concrete outlet at timestamp 100 with a 100 W reading,
integrated at 3700, gains exactly 100 Wh. -/
theorem claim_C8_witness :
    ∃ o2, update_energy_delivered demoOutletC8 3700 = Except.ok o2 ∧
      o2.energy_delivered = demoOutletC8.energy_delivered + 100 :=
  (claim_C8 demoOutletC8 3700 100 (by decide) (by decide) (by decide)).2 rfl
    (by norm_num [demoOutletC8, update_last_sensor_data_update_timestamp])

/-- C6: authenticate returns true exactly when the probe produced a value
whose text begins with the device-family signature; a raised error or a
missing value yields false. -/
theorem claim_C6 (r : LinkOutcome) :
    authenticate r = true ↔
      ∃ v, r = LinkOutcome.value (some v) ∧
        pyStartsWith (pyStr v) "Raritan Dominion PX" = true := by
  cases r with
  | raises => simp [authenticate]
  | value v =>
      cases v with
      | none => simp [authenticate]
      | some w => simp [authenticate]

/-- C6 witness: a PX2 description authenticates. -/
theorem claim_C6_witness :
    authenticate (LinkOutcome.value (some (Value.s "Raritan Dominion PX2 - PDU"))) = true :=
  (claim_C6 (LinkOutcome.value (some (Value.s "Raritan Dominion PX2 - PDU")))).2
    ⟨Value.s "Raritan Dominion PX2 - PDU", rfl, rfl⟩

/-- C7: after a successful discovery round the stored name is the segment
of the description before the first " - " separator, a space and the
system name; energy support is the string comparison with "Yes"; the cpu
temperature is the raw reading divided by 10. -/
theorem claim_C7 (pdu : RaritanPDU) (d : DiscoveryResult) :
    (applyDiscoveryFields pdu d).name =
      String.mk (specFirstSegment (" - ".data) (pyStr d.desc).data)
        ++ " " ++ pyStr d.sysName ∧
    (applyDiscoveryFields pdu d).energy_support = pyEqStr d.energySupport "Yes" ∧
    ((applyDiscoveryFields pdu d).energy_support = true ↔
      d.energySupport = Value.s "Yes") ∧
    (applyDiscoveryFields pdu d).cpu_temperature = (d.cpuTemp : ℚ) / 10 := by
  refine ⟨?_, rfl, ?_, rfl⟩
  · simp [applyDiscoveryFields, firstSegment_eq_spec (" - ".data) (by decide)]
  · cases h : d.energySupport with
    | i n => simp [applyDiscoveryFields, h, pyEqStr]
    | s t => simp [applyDiscoveryFields, h, pyEqStr]
    | f q => simp [applyDiscoveryFields, h, pyEqStr]

/-- C7 witness at the demo discovery values. -/
theorem claim_C7_witness :
    (applyDiscoveryFields initialPDU demoDiscovery).name =
      String.mk (specFirstSegment (" - ".data) (pyStr demoDiscovery.desc).data)
        ++ " " ++ pyStr demoDiscovery.sysName :=
  (claim_C7 initialPDU demoDiscovery).1

/-- C10: over an outlet list whose j-th element carries index j+1 (the
invariant update_data establishes), an in-range 1-based index returns the
outlet with that index, and index 0 returns the last outlet via Python's
negative list indexing. -/
theorem claim_C10 (pdu : RaritanPDU)
    (hne : pdu.outlets ≠ [])
    (hidx : ∀ j (hj : j < pdu.outlets.length),
      (pdu.outlets.get ⟨j, hj⟩).index = (j : Int) + 1)
    (hcount : pdu.outlet_count = pdu.outlets.length) :
    (∀ i : Int, 1 ≤ i → i ≤ (pdu.outlet_count : Int) →
      ∃ o, get_outlet_by_index pdu i = some o ∧ o.index = i) ∧
    (∃ o, get_outlet_by_index pdu 0 = some o ∧
      o.index = (pdu.outlet_count : Int)) := by
  have hlen : 0 < pdu.outlets.length := List.length_pos.mpr hne
  constructor
  · intro i hi1 hi2
    have hnn : (0 : Int) ≤ i - 1 := by linarith
    have hv : ((i - 1).toNat : Int) = i - 1 := Int.toNat_of_nonneg hnn
    have hlt : (i - 1).toNat < pdu.outlets.length := by
      rw [hcount] at hi2
      omega
    refine ⟨pdu.outlets.get ⟨(i - 1).toNat, hlt⟩, ?_, ?_⟩
    · simp [get_outlet_by_index, pyListGet, hnn, List.get?_eq_get hlt]
    · rw [hidx (i - 1).toNat hlt]
      omega
  · have hlt : pdu.outlets.length - 1 < pdu.outlets.length := by omega
    have h1 : ¬ (0 : Int) ≤ 0 - 1 := by norm_num
    have habs : ((0 : Int) - 1).natAbs = 1 := by decide
    have h2 : ((0 : Int) - 1).natAbs ≤ pdu.outlets.length := by omega
    refine ⟨pdu.outlets.get ⟨pdu.outlets.length - 1, hlt⟩, ?_, ?_⟩
    · simp only [get_outlet_by_index, pyListGet, habs, if_neg h1]
      rw [if_pos (show 1 ≤ pdu.outlets.length from hlen)]
      exact List.get?_eq_get hlt
    · rw [hidx (pdu.outlets.length - 1) hlt, hcount]
      omega

/-- C10 witness on a three-outlet device. -/
theorem claim_C10_witness :
    (∀ i : Int, 1 ≤ i → i ≤ (demoPDU3.outlet_count : Int) →
      ∃ o, get_outlet_by_index demoPDU3 i = some o ∧ o.index = i) ∧
    (∃ o, get_outlet_by_index demoPDU3 0 = some o ∧
      o.index = (demoPDU3.outlet_count : Int)) :=
  claim_C10 demoPDU3 (by decide) (by decide) (by decide)

/-- Looking up the key just assigned finds the assigned value. -/
theorem lookup_setKey_self (l : List (String × Value)) (k : String) (v : Value) :
    List.lookup k (setKey l k v) = some v := by
  induction l with
  | nil => simp [setKey, List.lookup]
  | cons p rest ih =>
      obtain ⟨k', v'⟩ := p
      by_cases h : k' = k
      · subst h
        simp [setKey, List.lookup]
      · have hb : (k == k') = false := by
          simp only [beq_eq_false_iff_ne]
          exact Ne.symm h
        simp [setKey, h, List.lookup, hb, ih]

/-- Assigning one key leaves every other key's lookup unchanged. -/
theorem lookup_setKey_ne (l : List (String × Value)) (k k' : String) (v : Value)
    (h : k ≠ k') : List.lookup k (setKey l k' v) = List.lookup k l := by
  have hb : (k == k') = false := by
    simp only [beq_eq_false_iff_ne]
    exact h
  induction l with
  | nil => simp [setKey, List.lookup, hb]
  | cons p rest ih =>
      obtain ⟨a, b⟩ := p
      by_cases ha : a = k'
      · subst ha
        simp [setKey, List.lookup, hb]
      · simp [setKey, ha, List.lookup, ih]

/-- Assigning an already-present key preserves the key sequence. -/
theorem keys_setKey (l : List (String × Value)) (k : String) (v : Value)
    (h : k ∈ l.map Prod.fst) : (setKey l k v).map Prod.fst = l.map Prod.fst := by
  induction l with
  | nil => simp at h
  | cons p rest ih =>
      obtain ⟨a, b⟩ := p
      by_cases ha : a = k
      · subst ha
        simp [setKey]
      · have hk : k ∈ rest.map Prod.fst := by
          rcases List.mem_cons.mp h with h1 | h1
          · exact absurd h1.symm ha
          · exact h1
        simp [setKey, ha, ih hk]

/-- The integration step with a nonnegative integer active-power reading
always succeeds, never decreases the energy accumulator, and touches
neither the sensor dict nor the stored timestamp. -/
theorem update_energy_delivered_mono (o : RaritanPDUOutlet) (t : ℚ) (p : Int)
    (hp : 0 ≤ p)
    (hap : List.lookup "active_power" o.sensor_data = some (Value.i p)) :
    ∃ o2, update_energy_delivered o t = Except.ok o2 ∧
      o.energy_delivered ≤ o2.energy_delivered ∧
      o2.sensor_data = o.sensor_data ∧
      o2.index = o.index ∧
      o2.last_sensor_data_update_timestamp = o.last_sensor_data_update_timestamp := by
  by_cases h0 : o.last_sensor_data_update_timestamp = 0
  · exact ⟨o, by simp [update_energy_delivered, h0], le_refl _, rfl, rfl, rfl⟩
  · by_cases hneg : t - o.last_sensor_data_update_timestamp < 0
    · exact ⟨o, by simp [update_energy_delivered, h0, hneg], le_refl _, rfl, rfl, rfl⟩
    · refine ⟨{ o with energy_delivered := o.energy_delivered +
          (p : ℚ) * ((t - o.last_sensor_data_update_timestamp) / ((60 : ℚ) * 60)) },
        ?_, ?_, rfl, rfl, rfl⟩
      · simp only [update_energy_delivered, if_neg h0, if_neg hneg, pyDictGet, hap, pyMulQ]
      · show o.energy_delivered ≤ o.energy_delivered +
          (p : ℚ) * ((t - o.last_sensor_data_update_timestamp) / ((60 : ℚ) * 60))
        have h1 : (0 : ℚ) ≤ (t - o.last_sensor_data_update_timestamp) / ((60 : ℚ) * 60) :=
          div_nonneg (by linarith) (by norm_num)
        have h2 : (0 : ℚ) ≤ (p : ℚ) := by exact_mod_cast hp
        linarith [mul_nonneg h2 h1]

/-- One refresh cycle with a nonnegative power reading succeeds and never
decreases the energy accumulator. -/
theorem powerCycle_mono (o : RaritanPDUOutlet) (p : Int) (t : ℚ) (hp : 0 ≤ p) :
    ∃ o1, powerCycle o p t = Except.ok o1 ∧
      o.energy_delivered ≤ o1.energy_delivered := by
  obtain ⟨o2, hok, hle, _, _, _⟩ :=
    update_energy_delivered_mono
      { o with sensor_data := setKey o.sensor_data "active_power" (Value.i p) } t p hp
      (lookup_setKey_self _ _ _)
  exact ⟨update_last_sensor_data_update_timestamp o2 t, by simp [powerCycle, hok], hle⟩

/-- Monotonicity of the accumulator over any sequence of refresh cycles
with nonnegative power readings. -/
theorem runCycles_mono : ∀ (cycles : List (Int × ℚ)) (o o' : RaritanPDUOutlet),
    (∀ c ∈ cycles, 0 ≤ c.1) → runCycles o cycles = Except.ok o' →
    o.energy_delivered ≤ o'.energy_delivered := by
  intro cycles
  induction cycles with
  | nil =>
      intro o o' _ hrun
      simp [runCycles] at hrun
      rw [hrun]
  | cons c rest ih =>
      intro o o' hpow hrun
      obtain ⟨p, t⟩ := c
      obtain ⟨o1, hok, hle⟩ := powerCycle_mono o p t (hpow (p, t) (by simp))
      simp only [runCycles, hok] at hrun
      exact le_trans hle
        (ih o1 o' (fun c hc => hpow c (List.mem_cons_of_mem _ hc)) hrun)

/-- C2: across any sequence of refresh cycles with non-decreasing
timestamps and nonnegative active-power readings, the session energy
accumulator never decreases.  (The code even guarantees this without the
timestamp hypothesis: a negative interval is skipped by the guard.) -/
theorem claim_C2 (cycles : List (Int × ℚ)) (o o' : RaritanPDUOutlet)
    (hpow : ∀ c ∈ cycles, 0 ≤ c.1)
    (_hts : List.Chain' (fun a b => a ≤ b) (cycles.map Prod.snd))
    (hrun : runCycles o cycles = Except.ok o') :
    o.energy_delivered ≤ o'.energy_delivered :=
  runCycles_mono cycles o o' hpow hrun

/-- C2 witness: two concrete cycles on a fresh outlet. -/
theorem claim_C2_witness :
    ∃ o', runCycles demoOutlet demoCycles = Except.ok o' ∧
      demoOutlet.energy_delivered ≤ o'.energy_delivered := by
  obtain ⟨o1, h1, _⟩ := powerCycle_mono demoOutlet 100 10 (by norm_num)
  obtain ⟨o2, h2, _⟩ := powerCycle_mono o1 50 20 (by norm_num)
  have hrun : runCycles demoOutlet demoCycles = Except.ok o2 := by
    simp [demoCycles, runCycles, h1, h2]
  refine ⟨o2, hrun, claim_C2 demoCycles demoOutlet o2 (by decide) ?_ hrun⟩
  norm_num [demoCycles, List.chain'_cons]

/-- C5: after a successful discovery round, a changed outlet count
replaces the collection by exactly outletCount freshly constructed
outlets, indices 1..N, zeroed energy state, carrying the just-determined
energy-support flag; an unchanged count leaves the outlet list untouched. -/
theorem claim_C5 (pdu : RaritanPDU) (d : DiscoveryResult) :
    (d.outletCount ≠ pdu.outlet_count →
      (discoveryStep pdu d).outlet_count = d.outletCount ∧
      (discoveryStep pdu d).outlets.length = d.outletCount ∧
      (∀ j, j < d.outletCount →
        ∃ oj, (discoveryStep pdu d).outlets.get? j = some oj ∧
          oj = newOutlet ((j : Int) + 1) ((applyDiscoveryFields pdu d).energy_support) ∧
          oj.index = (j : Int) + 1 ∧
          oj.energy_support = pyEqStr d.energySupport "Yes" ∧
          oj.energy_delivered = 0 ∧
          oj.initial_energy_delivered = 0 ∧
          oj.last_sensor_data_update_timestamp = 0)) ∧
    (d.outletCount = pdu.outlet_count →
      (discoveryStep pdu d).outlets = pdu.outlets ∧
      (discoveryStep pdu d).outlet_count = pdu.outlet_count) := by
  have hoc : (applyDiscoveryFields pdu d).outlet_count = pdu.outlet_count := rfl
  constructor
  · intro h
    have hcond : d.outletCount ≠ (applyDiscoveryFields pdu d).outlet_count := by
      rw [hoc]
      exact h
    have hstep : discoveryStep pdu d =
        { applyDiscoveryFields pdu d with
          outlet_count := d.outletCount
          outlets := (List.range d.outletCount).map
            (fun (i : Nat) => newOutlet ((i : Int) + 1)
              (applyDiscoveryFields pdu d).energy_support) } := by
      rw [discoveryStep, reconcileOutlets, if_pos hcond]
    refine ⟨by rw [hstep], ?_, ?_⟩
    · rw [hstep]
      simp
    · intro j hj
      refine ⟨newOutlet ((j : Int) + 1) ((applyDiscoveryFields pdu d).energy_support),
        ?_, rfl, rfl, rfl, rfl, rfl, rfl⟩
      rw [hstep]
      simp [List.get?_eq_getElem?, List.getElem?_map, List.getElem?_range hj]
  · intro h
    have hcond : ¬ d.outletCount ≠ (applyDiscoveryFields pdu d).outlet_count := by
      rw [hoc]
      exact fun hne => hne h
    have hstep : discoveryStep pdu d = applyDiscoveryFields pdu d := by
      rw [discoveryStep, reconcileOutlets, if_neg hcond]
    constructor
    · rw [hstep]
      rfl
    · rw [hstep]
      exact hoc

/-- C5 witness: initial device (count 0) discovering one outlet gets a
fresh outlet with index 1; re-discovering the same count on the result
leaves its outlet list untouched. -/
theorem claim_C5_witness :
    ((discoveryStep initialPDU demoDiscovery).outlets.length = 1 ∧
      (discoveryStep (discoveryStep initialPDU demoDiscovery) demoDiscovery).outlets =
        (discoveryStep initialPDU demoDiscovery).outlets) := by
  constructor
  · exact ((claim_C5 initialPDU demoDiscovery).1 (by decide)).2.1
  · exact ((claim_C5 (discoveryStep initialPDU demoDiscovery) demoDiscovery).2 (by decide)).1

/-- Assigning a run of response values to a key list: the run is consumed
in order, untouched keys keep their lookups, the m-th key of the run ends
up holding the (i+m)-th response value, and no scalar field changes. -/
theorem assignFields_spec (vs : List Value) :
    ∀ (ks : List String) (o : RaritanPDUOutlet) (i : Nat),
      ks.Nodup →
      (∀ x ∈ ks, x ∈ o.sensor_data.map Prod.fst) →
      i + ks.length ≤ vs.length →
      ∃ o1,
        assignFields o (some vs) i ks = Except.ok (o1, i + ks.length) ∧
        o1.index = o.index ∧
        o1.last_sensor_data_update_timestamp = o.last_sensor_data_update_timestamp ∧
        o1.energy_delivered = o.energy_delivered ∧
        o1.sensor_data.map Prod.fst = o.sensor_data.map Prod.fst ∧
        (∀ k, k ∉ ks → List.lookup k o1.sensor_data = List.lookup k o.sensor_data) ∧
        (∀ m, (hm : m < ks.length) →
          List.lookup (ks.get ⟨m, hm⟩) o1.sensor_data = vs.get? (i + m)) := by
  intro ks
  induction ks with
  | nil =>
      intro o i _ _ _
      exact ⟨o, by simp [assignFields], rfl, rfl, rfl, rfl, fun k _ => rfl,
        fun m hm => absurd hm (Nat.not_lt_zero m)⟩
  | cons k ks ih =>
      intro o i hnd hmem hlen
      simp only [List.length_cons] at hlen
      have hi : i < vs.length := by omega
      obtain ⟨v, hv⟩ : ∃ v, vs.get? i = some v := ⟨vs.get ⟨i, hi⟩, List.get?_eq_get hi⟩
      have hsub : pySubscript (some vs) i = Except.ok v := by
        simp only [pySubscript, hv]
      have hknd : k ∉ ks := (List.nodup_cons.mp hnd).1
      have hnd' : ks.Nodup := (List.nodup_cons.mp hnd).2
      have hkmem : k ∈ o.sensor_data.map Prod.fst := hmem k (List.mem_cons_self k ks)
      have hkeys' : (setKey o.sensor_data k v).map Prod.fst = o.sensor_data.map Prod.fst :=
        keys_setKey _ _ _ hkmem
      have hmem' : ∀ x ∈ ks, x ∈ (setKey o.sensor_data k v).map Prod.fst := by
        intro x hx
        rw [hkeys']
        exact hmem x (List.mem_cons_of_mem _ hx)
      have hlen' : (i + 1) + ks.length ≤ vs.length := by omega
      obtain ⟨o1, hok, hidx, hts, hen, hkeys1, hunt, hlook⟩ :=
        ih { o with sensor_data := setKey o.sensor_data k v } (i + 1) hnd' hmem' hlen'
      refine ⟨o1, ?_, hidx, hts, hen, ?_, ?_, ?_⟩
      · simp only [assignFields, hsub]
        rw [hok]
        have harith : i + 1 + ks.length = i + (k :: ks).length := by
          simp only [List.length_cons]
          omega
        rw [harith]
      · rw [hkeys1]
        exact hkeys'
      · intro k' hk'
        have h1 : k' ∉ ks := fun h => hk' (List.mem_cons_of_mem _ h)
        have h2 : k' ≠ k := fun h => hk' (h ▸ List.mem_cons_self k ks)
        rw [hunt k' h1]
        exact lookup_setKey_ne _ _ _ _ h2
      · intro m hm
        cases m with
        | zero =>
            have h1 := hunt k hknd
            have h2 : List.lookup k (setKey o.sensor_data k v) = some v :=
              lookup_setKey_self _ _ _
            have harith : i + 0 = i := rfl
            rw [harith, hv]
            exact h1.trans h2
        | succ m' =>
            have hm' : m' < ks.length := by
              simp only [List.length_cons] at hm
              omega
            have harith : i + (m' + 1) = i + 1 + m' := by omega
            rw [harith]
            exact hlook m' hm'

/-- The integration step never touches the sensor dict or the index, and
succeeds whenever the current active_power value is an integer. -/
theorem update_energy_delivered_frame (o : RaritanPDUOutlet) (t : ℚ) (p : Int)
    (hap : List.lookup "active_power" o.sensor_data = some (Value.i p)) :
    ∃ o2, update_energy_delivered o t = Except.ok o2 ∧
      o2.sensor_data = o.sensor_data ∧ o2.index = o.index := by
  by_cases h0 : o.last_sensor_data_update_timestamp = 0
  · exact ⟨o, by simp [update_energy_delivered, h0], rfl, rfl⟩
  · by_cases hneg : t - o.last_sensor_data_update_timestamp < 0
    · exact ⟨o, by simp [update_energy_delivered, h0, hneg], rfl, rfl⟩
    · refine ⟨{ o with energy_delivered := o.energy_delivered +
          (p : ℚ) * ((t - o.last_sensor_data_update_timestamp) / ((60 : ℚ) * 60)) },
        ?_, rfl, rfl⟩
      simp only [update_energy_delivered, if_neg h0, if_neg hneg, pyDictGet, hap, pyMulQ]

/-- Lines 163-171 on one outlet: the outlet consumes exactly its own field
count from the response, in order, and field m receives value i+m. -/
theorem updateOutletFromResults_spec (fs : List String) (vs : List Value) (now : ℚ)
    (hnd : fs.Nodup) (hap : "active_power" ∈ fs)
    (hint : ∀ v ∈ vs, ∃ n : Int, v = Value.i n)
    (o : RaritanPDUOutlet) (i : Nat)
    (hkeys : o.sensor_data.map Prod.fst = fs)
    (hlen : i + fs.length ≤ vs.length) :
    ∃ o3, updateOutletFromResults o (some vs) i now = Except.ok (o3, i + fs.length) ∧
      o3.index = o.index ∧
      o3.sensor_data.map Prod.fst = fs ∧
      (∀ m, (hm : m < fs.length) →
        List.lookup (fs.get ⟨m, hm⟩) o3.sensor_data = vs.get? (i + m)) := by
  obtain ⟨o1, hok, hidx1, _, _, hkeys1, _, hlook⟩ :=
    assignFields_spec vs fs o i hnd
      (by intro x hx; rw [hkeys]; exact hx) hlen
  obtain ⟨⟨m0, hm0⟩, hm0eq⟩ := List.mem_iff_get.mp hap
  have hap1 : List.lookup "active_power" o1.sensor_data = vs.get? (i + m0) := by
    rw [← hm0eq]
    exact hlook m0 hm0
  have him0 : i + m0 < vs.length := by omega
  obtain ⟨v, hv⟩ : ∃ v, vs.get? (i + m0) = some v :=
    ⟨vs.get ⟨i + m0, him0⟩, List.get?_eq_get him0⟩
  obtain ⟨n, hn⟩ := hint v (List.get?_mem hv)
  subst hn
  have hap2 : List.lookup "active_power" o1.sensor_data = some (Value.i n) := by
    rw [hap1, hv]
  obtain ⟨o2, hok2, hsd2, hidx2⟩ := update_energy_delivered_frame o1 now n hap2
  have heq : updateOutletFromResults o (some vs) i now =
      Except.ok (update_last_sensor_data_update_timestamp o2 now, i + fs.length) := by
    simp only [updateOutletFromResults, hkeys, hok, hok2]
  refine ⟨update_last_sensor_data_update_timestamp o2 now, heq, ?_, ?_, ?_⟩
  · exact hidx2.trans hidx1
  · show o2.sensor_data.map Prod.fst = fs
    rw [hsd2, hkeys1, hkeys]
  · intro m hm
    show List.lookup (fs.get ⟨m, hm⟩) o2.sensor_data = vs.get? (i + m)
    rw [hsd2]
    exact hlook m hm

/-- The distribution loop of lines 162-171: every outlet's m-th field gets
response value j*F+m, outlet positions and indices are preserved. -/
theorem distributeLoop_spec (fs : List String) (vs : List Value) (now : ℚ)
    (hnd : fs.Nodup) (hap : "active_power" ∈ fs)
    (hint : ∀ v ∈ vs, ∃ n : Int, v = Value.i n) :
    ∀ (outlets : List RaritanPDUOutlet) (i : Nat),
      (∀ o ∈ outlets, o.sensor_data.map Prod.fst = fs) →
      i + outlets.length * fs.length ≤ vs.length →
      ∃ outlets2,
        distributeLoop outlets (some vs) i now = Except.ok outlets2 ∧
        outlets2.length = outlets.length ∧
        (∀ j, (hj : j < outlets.length) →
          ∃ o2, outlets2.get? j = some o2 ∧
            o2.index = (outlets.get ⟨j, hj⟩).index ∧
            (∀ m, (hm : m < fs.length) →
              List.lookup (fs.get ⟨m, hm⟩) o2.sensor_data =
                vs.get? (i + j * fs.length + m))) := by
  intro outlets
  induction outlets with
  | nil =>
      intro i _ _
      exact ⟨[], by simp [distributeLoop], rfl, fun j hj => absurd hj (Nat.not_lt_zero j)⟩
  | cons o os ih =>
      intro i hkeys hlen
      have hsucc : (o :: os).length * fs.length = os.length * fs.length + fs.length := by
        simp only [List.length_cons]
        ring
      rw [hsucc] at hlen
      have h1 : i + fs.length ≤ vs.length :=
        le_trans (Nat.add_le_add_left (Nat.le_add_left fs.length _) i) hlen
      have h2 : (i + fs.length) + os.length * fs.length ≤ vs.length := by
        have harith : (i + fs.length) + os.length * fs.length =
            i + (os.length * fs.length + fs.length) := by ring
        rw [harith]
        exact hlen
      obtain ⟨o3, hok1, hidx3, hkeys3, hlook3⟩ :=
        updateOutletFromResults_spec fs vs now hnd hap hint o i
          (hkeys o (List.mem_cons_self o os)) h1
      obtain ⟨outlets2, hok2, hlen2, hget⟩ :=
        ih (i + fs.length) (fun o' ho' => hkeys o' (List.mem_cons_of_mem _ ho')) h2
      refine ⟨o3 :: outlets2, ?_, ?_, ?_⟩
      · simp only [distributeLoop, hok1, hok2]
      · simp [hlen2]
      · intro j hj
        cases j with
        | zero =>
            refine ⟨o3, rfl, hidx3, ?_⟩
            intro m hm
            have harith : i + 0 * fs.length + m = i + m := by ring
            rw [harith]
            exact hlook3 m hm
        | succ j' =>
            have hj' : j' < os.length := by
              simp only [List.length_cons] at hj
              omega
            obtain ⟨o2, hg, hi2, hl2⟩ := hget j' hj'
            refine ⟨o2, hg, hi2, ?_⟩
            intro m hm
            have harith : i + (j' + 1) * fs.length + m =
                (i + fs.length) + j' * fs.length + m := by ring
            rw [harith]
            exact hl2 m hm

/-- Request construction: one request per outlet per field, N*F in all. -/
theorem buildOids_length (fs : List String) :
    ∀ outlets : List RaritanPDUOutlet,
      (∀ o ∈ outlets, o.sensor_data.map Prod.fst = fs) →
      (buildOids outlets).length = outlets.length * fs.length := by
  intro outlets
  induction outlets with
  | nil => intro _; simp [buildOids]
  | cons o os ih =>
      intro hkeys
      have hk : o.sensor_data.map Prod.fst = fs := hkeys o (List.mem_cons_self o os)
      have hos := ih (fun o' h => hkeys o' (List.mem_cons_of_mem _ h))
      simp only [buildOids, List.flatMap_cons] at hos ⊢
      rw [List.length_append, List.length_map, hk, hos, List.length_cons]
      ring

/-- Request k = j*F+m names the j-th outlet's index and the m-th field's
wire object name. -/
theorem buildOids_get? (fs : List String) :
    ∀ (outlets : List RaritanPDUOutlet),
      (∀ o ∈ outlets, o.sensor_data.map Prod.fst = fs) →
      ∀ j m, (hj : j < outlets.length) → (hm : m < fs.length) →
        (buildOids outlets).get? (j * fs.length + m) =
          some ("PDU-MIB", mibObjectName (fs.get ⟨m, hm⟩),
            (outlets.get ⟨j, hj⟩).index) := by
  intro outlets
  induction outlets with
  | nil => intro _ j m hj _; exact absurd hj (Nat.not_lt_zero j)
  | cons o os ih =>
      intro hkeys j m hj hm
      have hk : o.sensor_data.map Prod.fst = fs := hkeys o (List.mem_cons_self o os)
      have hbuild : buildOids (o :: os) =
          (fs.map (fun data_name => ("PDU-MIB", mibObjectName data_name, o.index)))
            ++ buildOids os := by
        simp only [buildOids, List.flatMap_cons, hk]
      cases j with
      | zero =>
          rw [hbuild]
          have hzero : (0 : Nat) * fs.length + m = m := by ring
          rw [hzero]
          have hmlt : m <
              (fs.map (fun data_name =>
                ("PDU-MIB", mibObjectName data_name, o.index))).length := by
            simpa using hm
          rw [List.get?_append hmlt, List.get?_map, List.get?_eq_get hm]
          rfl
      | succ j' =>
          have hj' : j' < os.length := by
            simp only [List.length_cons] at hj
            omega
          rw [hbuild]
          have hle : (fs.map (fun data_name =>
              ("PDU-MIB", mibObjectName data_name, o.index))).length ≤
              (j' + 1) * fs.length + m := by
            simp only [List.length_map]
            calc fs.length ≤ j' * fs.length + fs.length := Nat.le_add_left _ _
            _ = (j' + 1) * fs.length := by ring
            _ ≤ (j' + 1) * fs.length + m := Nat.le_add_right _ _
          rw [List.get?_append_right hle]
          have harith : (j' + 1) * fs.length + m -
              (fs.map (fun data_name =>
                ("PDU-MIB", mibObjectName data_name, o.index))).length =
              j' * fs.length + m := by
            simp only [List.length_map]
            have hx : (j' + 1) * fs.length = j' * fs.length + fs.length := by ring
            omega
          rw [harith]
          exact ih (fun o' h => hkeys o' (List.mem_cons_of_mem _ h)) j' m hj' hm

/-- C3: a collection of N outlets with the same F declared fields produces
exactly N*F requests by walking outlets in order and fields in declared
order; distributing a same-length response assigns value k = j*F+m to
exactly the outlet position j and field m that generated request k. -/
theorem claim_C3 (outlets : List RaritanPDUOutlet) (fs : List String)
    (vs : List Value) (now : ℚ)
    (hkeys : ∀ o ∈ outlets, o.sensor_data.map Prod.fst = fs)
    (hnd : fs.Nodup) (hap : "active_power" ∈ fs)
    (hint : ∀ v ∈ vs, ∃ n : Int, v = Value.i n)
    (hlen : vs.length = outlets.length * fs.length) :
    (buildOids outlets).length = outlets.length * fs.length ∧
    (∀ j m, (hj : j < outlets.length) → (hm : m < fs.length) →
      (buildOids outlets).get? (j * fs.length + m) =
        some ("PDU-MIB", mibObjectName (fs.get ⟨m, hm⟩),
          (outlets.get ⟨j, hj⟩).index)) ∧
    ∃ outlets2, distributeLoop outlets (some vs) 0 now = Except.ok outlets2 ∧
      outlets2.length = outlets.length ∧
      (∀ j m, (hj : j < outlets.length) → (hm : m < fs.length) →
        ∃ o2, outlets2.get? j = some o2 ∧
          o2.index = (outlets.get ⟨j, hj⟩).index ∧
          List.lookup (fs.get ⟨m, hm⟩) o2.sensor_data =
            vs.get? (j * fs.length + m)) := by
  refine ⟨buildOids_length fs outlets hkeys, buildOids_get? fs outlets hkeys, ?_⟩
  obtain ⟨outlets2, hok, hlen2, hget⟩ :=
    distributeLoop_spec fs vs now hnd hap hint outlets 0 hkeys (by omega)
  refine ⟨outlets2, hok, hlen2, ?_⟩
  intro j m hj hm
  obtain ⟨o2, hg, hi2, hl2⟩ := hget j hj
  refine ⟨o2, hg, hi2, ?_⟩
  have harith : j * fs.length + m = 0 + j * fs.length + m := by omega
  rw [harith]
  exact hl2 m hm

/-- C3 witness: two outlets, five base fields, ten response values. -/
theorem claim_C3_witness :
    (buildOids demoOutlets).length = demoOutlets.length * demoFields.length ∧
    (∀ j m, (hj : j < demoOutlets.length) → (hm : m < demoFields.length) →
      (buildOids demoOutlets).get? (j * demoFields.length + m) =
        some ("PDU-MIB", mibObjectName (demoFields.get ⟨m, hm⟩),
          (demoOutlets.get ⟨j, hj⟩).index)) ∧
    ∃ outlets2, distributeLoop demoOutlets (some demoVals) 0 5 = Except.ok outlets2 ∧
      outlets2.length = demoOutlets.length ∧
      (∀ j m, (hj : j < demoOutlets.length) → (hm : m < demoFields.length) →
        ∃ o2, outlets2.get? j = some o2 ∧
          o2.index = (demoOutlets.get ⟨j, hj⟩).index ∧
          List.lookup (demoFields.get ⟨m, hm⟩) o2.sensor_data =
            demoVals.get? (j * demoFields.length + m)) :=
  claim_C3 demoOutlets demoFields demoVals 5 (by decide) (by decide) (by decide)
    (by
      intro v hv
      simp [demoVals] at hv
      obtain ⟨k, _, rfl⟩ := hv
      exact ⟨(k : Int), rfl⟩)
    (by decide)

/-- Setting the position just past a list, after appending one element,
replaces that appended element. -/
theorem set_append_length {α : Type} : ∀ (l : List α) (a b : α),
    (l ++ [a]).set l.length b = l ++ [b] := by
  intro l a b
  induction l with
  | nil => rfl
  | cons x xs ih =>
      show x :: ((xs ++ [a]).set xs.length b) = x :: (xs ++ [b])
      rw [ih]

/-- get_data allocates the snapshot in a fresh cell: the returned address
differs from the outlet's own dict, the snapshot holds the summed energy
entry, and writing through the returned address never changes the
outlet's sensor_data cell. -/
theorem hGetData_spec (h : DictHeap) (o : HeapOutlet) (d : List (String × Value))
    (href : readCell h o.sensorRef = some d) :
    ∃ h2 a, hGetData h o = Except.ok (h2, a) ∧
      a ≠ o.sensorRef ∧
      readCell h2 a = some (setKey d "energy_delivered"
        (Value.f (o.energy_delivered + o.initial_energy_delivered))) ∧
      List.lookup "energy_delivered" (setKey d "energy_delivered"
        (Value.f (o.energy_delivered + o.initial_energy_delivered))) =
        some (Value.f (o.energy_delivered + o.initial_energy_delivered)) ∧
      readCell h2 o.sensorRef = some d ∧
      (∀ d', readCell (writeCell h2 a d') o.sensorRef = some d) := by
  have hlt : o.sensorRef < h.cells.length := by
    by_contra hge
    rw [readCell, List.get?_eq_none.mpr (Nat.le_of_not_lt hge)] at href
    cases href
  refine ⟨⟨h.cells ++ [setKey d "energy_delivered"
      (Value.f (o.energy_delivered + o.initial_energy_delivered))]⟩,
    h.cells.length, ?_, ?_, ?_, lookup_setKey_self _ _ _, ?_, ?_⟩
  · simp only [hGetData, href]
    have hw : writeCell ⟨h.cells ++ [d]⟩ h.cells.length
        (setKey d "energy_delivered"
          (Value.f (o.energy_delivered + o.initial_energy_delivered))) =
        ⟨h.cells ++ [setKey d "energy_delivered"
          (Value.f (o.energy_delivered + o.initial_energy_delivered))]⟩ := by
      simp only [writeCell]
      rw [set_append_length]
    rw [hw]
  · exact fun he => Nat.ne_of_lt hlt he.symm
  · exact List.get?_concat_length _ _
  · show (h.cells ++ [_]).get? o.sensorRef = some d
    rw [List.get?_append hlt]
    exact href
  · intro d'
    show ((h.cells ++ [_]).set h.cells.length d').get? o.sensorRef = some d
    rw [List.get?_set_ne _ _ (fun he => Nat.ne_of_lt hlt he.symm)]
    rw [List.get?_append hlt]
    exact href

/-- C9: the snapshot reports sessionEnergyDelivered plus the seeded
initial value, comes from a freshly copied dict, and mutating the
returned dict never changes the outlet's own state; concretely, seeding
500 and integrating one step of 10 reports exactly 510. -/
theorem claim_C9 (h : DictHeap) (o : HeapOutlet) (d : List (String × Value))
    (href : readCell h o.sensorRef = some d) :
    (∃ h2 a, hGetData h o = Except.ok (h2, a) ∧
      a ≠ o.sensorRef ∧
      readCell h2 a = some (setKey d "energy_delivered"
        (Value.f (o.energy_delivered + o.initial_energy_delivered))) ∧
      List.lookup "energy_delivered" (setKey d "energy_delivered"
        (Value.f (o.energy_delivered + o.initial_energy_delivered))) =
        some (Value.f (o.energy_delivered + o.initial_energy_delivered)) ∧
      readCell h2 o.sensorRef = some d ∧
      (∀ d', readCell (writeCell h2 a d') o.sensorRef = some d)) ∧
    (∃ o2, hUpdateEnergyDelivered demoHeap
        (hInitializeEnergyDelivered demoHOutlet 500) 3700 = Except.ok o2 ∧
      o2.energy_delivered = 10 ∧
      ∃ h2 a, hGetData demoHeap o2 = Except.ok (h2, a) ∧
        ∃ snap, readCell h2 a = some snap ∧
          List.lookup "energy_delivered" snap = some (Value.f 510)) := by
  refine ⟨hGetData_spec h o d href, ?_⟩
  have h0 : (hInitializeEnergyDelivered demoHOutlet 500).last_sensor_data_update_timestamp
      ≠ 0 := by
    norm_num [hInitializeEnergyDelivered, demoHOutlet]
  have hneg : ¬ ((3700 : ℚ) -
      (hInitializeEnergyDelivered demoHOutlet 500).last_sensor_data_update_timestamp
      < 0) := by
    norm_num [hInitializeEnergyDelivered, demoHOutlet]
  have hupd : hUpdateEnergyDelivered demoHeap
      (hInitializeEnergyDelivered demoHOutlet 500) 3700 =
      Except.ok { hInitializeEnergyDelivered demoHOutlet 500 with
        energy_delivered :=
          (hInitializeEnergyDelivered demoHOutlet 500).energy_delivered +
            ((10 : Int) : ℚ) * (((3700 : ℚ) -
              (hInitializeEnergyDelivered demoHOutlet 500).last_sensor_data_update_timestamp)
                / ((60 : ℚ) * 60)) } := by
    simp only [hUpdateEnergyDelivered, if_neg h0, if_neg hneg]
    rfl
  obtain ⟨h2, a, hget, _, hreadsnap, hlookup, _, _⟩ :=
    hGetData_spec demoHeap
      { hInitializeEnergyDelivered demoHOutlet 500 with
        energy_delivered :=
          (hInitializeEnergyDelivered demoHOutlet 500).energy_delivered +
            ((10 : Int) : ℚ) * (((3700 : ℚ) -
              (hInitializeEnergyDelivered demoHOutlet 500).last_sensor_data_update_timestamp)
                / ((60 : ℚ) * 60)) }
      (setKey baseSensorData "active_power" (Value.i 10)) rfl
  have henergy : ({ hInitializeEnergyDelivered demoHOutlet 500 with
      energy_delivered :=
        (hInitializeEnergyDelivered demoHOutlet 500).energy_delivered +
          ((10 : Int) : ℚ) * (((3700 : ℚ) -
            (hInitializeEnergyDelivered demoHOutlet 500).last_sensor_data_update_timestamp)
              / ((60 : ℚ) * 60)) } : HeapOutlet).energy_delivered = 10 := by
    norm_num [hInitializeEnergyDelivered, demoHOutlet]
  have htotal : ({ hInitializeEnergyDelivered demoHOutlet 500 with
      energy_delivered :=
        (hInitializeEnergyDelivered demoHOutlet 500).energy_delivered +
          ((10 : Int) : ℚ) * (((3700 : ℚ) -
            (hInitializeEnergyDelivered demoHOutlet 500).last_sensor_data_update_timestamp)
              / ((60 : ℚ) * 60)) } : HeapOutlet).energy_delivered +
      ({ hInitializeEnergyDelivered demoHOutlet 500 with
        energy_delivered :=
          (hInitializeEnergyDelivered demoHOutlet 500).energy_delivered +
            ((10 : Int) : ℚ) * (((3700 : ℚ) -
              (hInitializeEnergyDelivered demoHOutlet 500).last_sensor_data_update_timestamp)
                / ((60 : ℚ) * 60)) } : HeapOutlet).initial_energy_delivered = 510 := by
    norm_num [hInitializeEnergyDelivered, demoHOutlet]
  exact ⟨_, hupd, henergy, h2, a, hget, _, hreadsnap,
    hlookup.trans (by rw [htotal])⟩

/-- C9 witness: the snapshot facts at the concrete demo heap and outlet. -/
theorem claim_C9_witness :
    ∃ h2 a, hGetData demoHeap demoHOutlet = Except.ok (h2, a) ∧
      a ≠ demoHOutlet.sensorRef ∧
      readCell h2 a = some (setKey (setKey baseSensorData "active_power" (Value.i 10))
        "energy_delivered" (Value.f (demoHOutlet.energy_delivered +
          demoHOutlet.initial_energy_delivered))) ∧
      List.lookup "energy_delivered" (setKey (setKey baseSensorData "active_power"
        (Value.i 10)) "energy_delivered" (Value.f (demoHOutlet.energy_delivered +
          demoHOutlet.initial_energy_delivered))) =
        some (Value.f (demoHOutlet.energy_delivered +
          demoHOutlet.initial_energy_delivered)) ∧
      readCell h2 demoHOutlet.sensorRef =
        some (setKey baseSensorData "active_power" (Value.i 10)) ∧
      (∀ d', readCell (writeCell h2 a d') demoHOutlet.sensorRef =
        some (setKey baseSensorData "active_power" (Value.i 10))) :=
  (claim_C9 demoHeap demoHOutlet (setKey baseSensorData "active_power" (Value.i 10)) rfl).1

/-- C1: the code evaluated at a refresh whose discovery round succeeds
(one outlet) and whose batched sensor round fails: because line 158
re-checks the round-1 value instead of the round-2 value, the distribution
loop subscripts None and a TypeError escapes update_data, contradicting
the claimed silent abort. -/
theorem claim_C1 :
    update_data initialPDU (some demoDiscovery) none 1000 =
      Except.error PyErr.typeError := by
  rfl

end RaritanPdu
